import Mathlib

/-
Shallow embedding of the autoblog-models conversion layer
(src/Organisation.ts and the Blog module in src/unnamed/part_000).

Modelling conventions:
* A JavaScript `Date` is modelled as its millisecond timestamp, an `Int`.
  `new Date(d)` applied to a valid `Date` is a value-preserving copy, so it
  is the identity in the model.  A `Date` object is always truthy in JS.
* A zod field declared `.nullable().optional()` admits three states:
  missing (`undefined`), `null`, or a value.  It is modelled as
  `Option (Option a)`: `none` = missing, `some none` = null,
  `some (some v)` = value.
* `ObjectId` is modelled as a natural number wrapped in a structure;
  `toHexString` renders it as the 24-character lowercase-hex string that
  the bson library produces.
* JS truthiness: `""`, `0`, `false`, `null`, `undefined` are falsy;
  every object (including `Date`, arrays, and the credential bundle) is
  truthy.
* The conversion-time wall clock (`new Date()`) is passed explicitly as a
  `now : Int` parameter.
* `console.log` is an observable diagnostic with no effect on the returned
  value, so it does not appear in the model.
* The final `Schema.parse(obj)` call: on the typed records built by the
  converters every declared field already has the declared structural type,
  so the parse succeeds and returns the object with unknown keys stripped.
  For the typed model the converters build records with exactly the schema
  fields, hence parse is the identity there; the key-stripping behaviour
  (which removes `_id` from the Blog spread) is modelled separately at the
  key-set level (`zodParseKeys` below).
-/

namespace Autoblog

/-- One lowercase hex digit: digits map to `'0'..'9'` (code points from
48), the rest to `'a'..'f'` (code points from 97). -/
def hexChar (n : Nat) : Char :=
  if n < 10 then Char.ofNat (48 + n) else Char.ofNat (87 + n)

/-- 24-character lowercase hex rendering of a natural number
(bson `ObjectId.toHexString` output format). -/
def natToHex24 (n : Nat) : String :=
  String.mk ((List.range 24).map (fun i => hexChar (n / 16 ^ (23 - i) % 16)))

/-- bson `ObjectId`: a 12-byte identifier, modelled by its numeric value. -/
structure ObjectId where
  value : Nat
  deriving DecidableEq

/-- `ObjectId.prototype.toHexString`. -/
def ObjectId.toHexString (o : ObjectId) : String :=
  natToHex24 o.value

/-- JS truthiness of a string: `""` is falsy. -/
def truthyStr (s : String) : Bool := s != ""

/-- JS truthiness of a number: `0` is falsy. -/
def truthyInt (n : Int) : Bool := n != 0

/-- JS truthiness of a boolean. -/
def truthyBool (b : Bool) : Bool := b

/-- The JS expression `x || null` for a nullable-optional field `x`,
with `truthy` the truthiness test of the value type: a present truthy
value passes through, everything else collapses to `null`. -/
def jsOrNull (truthy : α → Bool) : Option (Option α) → Option α
  | some (some v) => if truthy v then some v else none
  | _ => none

/-! ## Organisation (src/Organisation.ts) -/

/-- `ShopifyConnectionResult` object shape: the credential bundle
(apiKey, domain, scopes). -/
structure ShopifyConnection where
  apiKey : String
  domain : String
  scopes : Option (Option String)
  deriving DecidableEq

/-- `ShopifyStatusResult` literal union. -/
inductive ShopifyStatus where
  | ACTIVE | PENDING | INACTIVE | ERROR
  deriving DecidableEq

/-- `billingPlanStatus` literal union. -/
inductive BillingPlanStatus where
  | INACTIVE | ACTIVE
  deriving DecidableEq

/-- `OrganisationResult` (stored Organisation entity shape). -/
structure OrganisationResultEntity where
  _id : ObjectId
  country : Option (Option String)
  contactEmail : Option (Option String)
  locale : Option (Option String)
  reviewed : Option (Option Bool)
  reviewSurface : Option (Option String)
  rating : Option (Option Int)
  plan : Option (Option String)
  website : Option (Option String)
  topics : Option (Option (List String))
  settingsLastSynced : Option (Option Int)
  createdAt : Option (Option Int)
  shopifyConnection : Option (Option ShopifyConnection)
  shopifyConnectionStatus : Option (Option ShopifyStatus)
  billingPlanStatus : Option (Option BillingPlanStatus)
  billingSubscriptionId : Option (Option String)
  billingPlanHandle : Option (Option String)
  billingUpdatedAt : Option (Option Int)
  deriving DecidableEq

/-- `OrganisationModelSchema` (output model shape). -/
structure OrganisationModel where
  id : String
  country : Option (Option String)
  contactEmail : Option (Option String)
  locale : Option (Option String)
  reviewed : Option (Option Bool)
  reviewSurface : Option (Option String)
  rating : Option (Option Int)
  plan : Option (Option String)
  website : Option (Option String)
  topics : Option (Option (List String))
  shopifyConnection : Option (Option ShopifyConnection)
  shopifyConnectionStatus : Option (Option ShopifyStatus)
  createdAt : Option (Option Int)
  settingsLastSynced : Option (Option Int)
  shopifySite : Option (Option String)
  billingPlanStatus : Option (Option BillingPlanStatus)
  billingSubscriptionId : Option (Option String)
  billingPlanHandle : Option (Option String)
  billingUpdatedAt : Option (Option Int)
  deriving DecidableEq

/-- `OrganisationModel.convertFromEntity` (src/Organisation.ts lines 71-98).
Field by field:
* `id: entity._id.toHexString()`
* descriptive fields: `entity.f || null`
* `createdAt: new Date(entity.createdAt || new Date())` — a stored `Date`
  is always truthy, so a present date passes through and null/missing
  becomes `now`
* `settingsLastSynced: entity.settingsLastSynced ? new Date(...) : null`
* `shopifyConnection: includeCredentials ? (entity.shopifyConnection || null) : null`
* `shopifyConnectionStatus: entity.shopifyConnectionStatus || "INACTIVE"`
  (a stored status literal is a nonempty string, hence truthy)
* `shopifySite: entity?.shopifyConnection?.domain || null`
* `billingPlanStatus: entity.billingPlanStatus || "INACTIVE"`
* `billingSubscriptionId` / `billingPlanHandle`: `entity.f || null`
* `billingUpdatedAt: entity.billingUpdatedAt ? new Date(...) : null`
The closing `OrganisationModelSchema.parse(obj)` succeeds and is the
identity on this record (see file header). -/
def OrganisationModel.convertFromEntity (entity : OrganisationResultEntity)
    (includeCredentials : Bool) (now : Int) : OrganisationModel :=
  { id := entity._id.toHexString
    country := some (jsOrNull truthyStr entity.country)
    contactEmail := some (jsOrNull truthyStr entity.contactEmail)
    locale := some (jsOrNull truthyStr entity.locale)
    reviewed := some (jsOrNull truthyBool entity.reviewed)
    reviewSurface := some (jsOrNull truthyStr entity.reviewSurface)
    rating := some (jsOrNull truthyInt entity.rating)
    plan := some (jsOrNull truthyStr entity.plan)
    website := some (jsOrNull truthyStr entity.website)
    topics := some (jsOrNull (fun _ => true) entity.topics)
    createdAt := some (some (match entity.createdAt with
      | some (some d) => d
      | _ => now))
    settingsLastSynced := some (match entity.settingsLastSynced with
      | some (some d) => some d
      | _ => none)
    shopifyConnection := some (if includeCredentials then
        jsOrNull (fun _ => true) entity.shopifyConnection
      else none)
    shopifyConnectionStatus := some (some (match entity.shopifyConnectionStatus with
      | some (some s) => s
      | _ => ShopifyStatus.INACTIVE))
    shopifySite := some (match entity.shopifyConnection with
      | some (some c) => if truthyStr c.domain then some c.domain else none
      | _ => none)
    billingPlanStatus := some (some (match entity.billingPlanStatus with
      | some (some s) => s
      | _ => BillingPlanStatus.INACTIVE))
    billingSubscriptionId := some (jsOrNull truthyStr entity.billingSubscriptionId)
    billingPlanHandle := some (jsOrNull truthyStr entity.billingPlanHandle)
    billingUpdatedAt := some (match entity.billingUpdatedAt with
      | some (some d) => some d
      | _ => none) }

/-! ## Blog (src/unnamed/part_000) -/

/-- `BlogTypeResult` literal union. -/
inductive BlogType where
  | RECIPE | TOPIC | PRODUCT
  deriving DecidableEq

/-- `ImageAspectRatioResult` literal union. -/
inductive ImageAspect where
  | ANY | SQUARE | LANDSCAPE | PORTRAIT
  deriving DecidableEq

/-- `ImageSourceResult` literal union. -/
inductive ImageSource where
  | ANY | PRODUCTS | SEARCH
  deriving DecidableEq

/-- `ProductResult` object shape. -/
structure Product where
  id : Option (Option String)
  image : Option (Option String)
  title : Option (Option String)
  url : Option (Option String)
  deriving DecidableEq

/-- `ImageResult` object shape. -/
structure Image where
  url : Option (Option String)
  alt : Option (Option String)
  credit : Option (Option String)
  deriving DecidableEq

/-- `UpcomingPostsResult` object shape. -/
structure UpcomingPost where
  title : Option (Option String)
  image : Option (Option Image)
  products : Option (Option (List Product))
  deriving DecidableEq

/-- `CompletedPostsResult` object shape. -/
structure CompletedPost where
  title : Option (Option String)
  id : Option (Option String)
  deriving DecidableEq

/-- The `enabledFormats` nested object shape. -/
structure EnabledFormats where
  allEnabled : Option (Option Bool)
  enabled : Option (Option (List String))
  deriving DecidableEq

/-- The `enabledProducts` nested object shape. -/
structure EnabledProducts where
  allEnabled : Option (Option Bool)
  enabled : Option (Option (List Product))
  deriving DecidableEq

/-- The `publishDays` nested object shape. -/
structure PublishDays where
  monday : Option (Option Bool)
  tuesday : Option (Option Bool)
  wednesday : Option (Option Bool)
  thursday : Option (Option Bool)
  friday : Option (Option Bool)
  saturday : Option (Option Bool)
  sunday : Option (Option Bool)
  deriving DecidableEq

/-- `BlogInputResult`: the configuration bag shared (via object spread)
by the stored Blog entity shape and the Blog output model shape. -/
structure BlogInput where
  disabled : Option (Option Bool)
  blogType : Option (Option BlogType)
  blogTopic : Option (Option String)
  enabledFormats : Option (Option EnabledFormats)
  enabledProducts : Option (Option EnabledProducts)
  keywords : Option (Option (List String))
  authorName : Option (Option String)
  blogId : Option (Option String)
  language : Option (Option String)
  publishPosts : Option (Option Bool)
  publishDays : Option (Option PublishDays)
  titleCustomPrompt : Option (Option String)
  titleWordLimit : Option (Option Int)
  bodyCustomPrompt : Option (Option String)
  bodyWordCount : Option (Option Int)
  imageKeywords : Option (Option String)
  imageAspectRatio : Option (Option ImageAspect)
  imageSource : Option (Option ImageSource)
  imageWidth : Option (Option Int)
  upcomingPosts : Option (Option (List UpcomingPost))
  completedPosts : Option (Option (List CompletedPost))
  deriving DecidableEq

/-- `BlogResult` (stored Blog entity shape): the configuration bag plus
`_id`, the `org` union (bare `ObjectId` or embedded Organisation entity),
and three timestamps. -/
structure BlogResultEntity extends BlogInput where
  _id : ObjectId
  org : Sum ObjectId OrganisationResultEntity
  createdAt : Option (Option Int)
  lastPostPublished : Option (Option Int)
  lastUpdated : Option (Option Int)
  deriving DecidableEq

/-- `BlogModelSchema` (Blog output model shape): the configuration bag plus
`id : string`, the resolved `org` union (string or Organisation model),
and the three timestamps. -/
structure BlogModel extends BlogInput where
  id : String
  org : Sum String OrganisationModel
  createdAt : Option (Option Int)
  lastPostPublished : Option (Option Int)
  lastUpdated : Option (Option Int)
  deriving DecidableEq

/-- `BlogModel.convertFromEntity` (src/unnamed/part_000 lines 138-149).
The object is built as
`{ ...entity, id, org, ...cond-spreads }` and then parsed against
`BlogModelSchema`:
* `...entity` copies every configuration-bag field and the stored
  timestamps through unchanged (the `_id` key it also copies is stripped
  by the final schema parse, modelled at the key level by `zodParseKeys`);
* `id: entity._id.toHexString()`;
* `org: ObjectId.isValid(entity.org) ? entity._id.toHexString()
       : OrganisationModel.convertFromEntity(entity.org, includeCredentials)`
  — note the source really converts `entity._id`, the blog's own
  identifier, to hex in the bare-identifier branch (line 143), not
  `entity.org`;
* `...entity.lastPostPublished && { lastPostPublished: new Date(entity.lastPostPublished || new Date()) }`
  — a conditional spread: when the stored value is truthy (only a `Date`
  can be) the field is overwritten with a copy of it, and the inner
  `|| new Date()` can never fire; when it is null or missing the spread
  contributes nothing and the value from `...entity` stands; likewise for
  `lastUpdated` and `createdAt`. -/
def BlogModel.convertFromEntity (entity : BlogResultEntity)
    (includeCredentials : Bool) (now : Int) : BlogModel :=
  { toBlogInput := entity.toBlogInput
    id := entity._id.toHexString
    org := match entity.org with
      | Sum.inl _ => Sum.inl entity._id.toHexString
      | Sum.inr o => Sum.inr (OrganisationModel.convertFromEntity o includeCredentials now)
    lastPostPublished := match entity.lastPostPublished with
      | some (some d) => some (some d)
      | v => v
    lastUpdated := match entity.lastUpdated with
      | some (some d) => some (some d)
      | v => v
    createdAt := match entity.createdAt with
      | some (some d) => some (some d)
      | v => v }

/-! ## Key-set model of the final `BlogModelSchema.parse`

zod `z.object` in its default ("strip") mode returns an object whose keys
are exactly the declared shape keys that are present on the input object;
unknown keys such as the `_id` copied in by `...entity` are dropped. -/

/-- The declared keys of `BlogInputResult.shape` (src/unnamed/part_000
lines 58-97), in declaration order. -/
def blogInputKeys : List String :=
  ["disabled", "blogType", "blogTopic", "enabledFormats", "enabledProducts",
   "keywords", "authorName", "blogId", "language", "publishPosts",
   "publishDays", "titleCustomPrompt", "titleWordLimit", "bodyCustomPrompt",
   "bodyWordCount", "imageKeywords", "imageAspectRatio", "imageSource",
   "imageWidth", "upcomingPosts", "completedPosts"]

/-- The declared keys of `BlogResult` (lines 108-119): the input bag plus
`_id`, `org` and the timestamps. -/
def blogResultKeys : List String :=
  blogInputKeys ++ ["_id", "org", "createdAt", "lastPostPublished", "lastUpdated"]

/-- The declared keys of `BlogModelSchema` (lines 123-133): the input bag
plus `id`, `org` and the timestamps — no `_id`. -/
def blogModelSchemaKeys : List String :=
  blogInputKeys ++ ["id", "org", "createdAt", "lastPostPublished", "lastUpdated"]

/-- The keys of the pre-parse object built on lines 139-147: the spread
entity's own keys, then `id` and `org`, then the conditionally spread
timestamp keys (present only when the corresponding stored value is
truthy). -/
def blogPreParseKeys (entityKeys : List String)
    (lppTruthy luTruthy caTruthy : Bool) : List String :=
  entityKeys ++ ["id", "org"]
    ++ (if lppTruthy then ["lastPostPublished"] else [])
    ++ (if luTruthy then ["lastUpdated"] else [])
    ++ (if caTruthy then ["createdAt"] else [])

/-- Key-set behaviour of `Schema.parse(obj)` for a zod object schema in
default strip mode: the output has exactly the declared keys that occur on
the input object. -/
def zodParseKeys (declaredKeys objKeys : List String) : List String :=
  declaredKeys.filter (fun k => objKeys.contains k)

/-! ## Concrete example records (used by witnesses and counterexamples) -/

/-- A concrete credential bundle. -/
def conn0 : ShopifyConnection :=
  { apiKey := "key-1", domain := "shop.example.com", scopes := some (some "read_products") }

/-- A concrete stored Organisation entity: credential bundle present,
`createdAt` present, both status fields absent/null. -/
def orgEnt0 : OrganisationResultEntity :=
  { _id := ⟨5⟩
    country := some (some "NZ")
    contactEmail := some (some "owner@example.com")
    locale := some (some "en")
    reviewed := some (some true)
    reviewSurface := none
    rating := some (some 4)
    plan := some none
    website := none
    topics := some (some ["food"])
    settingsLastSynced := some (some 10)
    createdAt := some (some 20)
    shopifyConnection := some (some conn0)
    shopifyConnectionStatus := none
    billingPlanStatus := some none
    billingSubscriptionId := none
    billingPlanHandle := none
    billingUpdatedAt := none }

/-- `orgEnt0` with no stored `createdAt`. -/
def orgEntNoCa : OrganisationResultEntity :=
  { orgEnt0 with createdAt := none }

/-- `orgEnt0` with present-but-falsy descriptive fields. -/
def orgEntFalsy : OrganisationResultEntity :=
  { orgEnt0 with reviewed := some (some false), rating := some (some 0),
                 country := some (some "") }

/-- A credential bundle with an empty `domain`. -/
def connEmptyDomain : ShopifyConnection :=
  { apiKey := "k", domain := "", scopes := none }

/-- `orgEnt0` with a credential bundle whose `domain` is the empty string. -/
def orgEntEmptyDomain : OrganisationResultEntity :=
  { orgEnt0 with shopifyConnection := some (some connEmptyDomain) }

/-- A concrete configuration bag. -/
def input0 : BlogInput :=
  { disabled := none
    blogType := some (some BlogType.TOPIC)
    blogTopic := some (some "cooking")
    enabledFormats := none
    enabledProducts := none
    keywords := some (some ["pasta"])
    authorName := some none
    blogId := none
    language := some (some "en")
    publishPosts := some (some true)
    publishDays := none
    titleCustomPrompt := none
    titleWordLimit := some (some 12)
    bodyCustomPrompt := none
    bodyWordCount := none
    imageKeywords := none
    imageAspectRatio := some (some ImageAspect.SQUARE)
    imageSource := none
    imageWidth := none
    upcomingPosts := some (some [{ title := some (some "T1"), image := none, products := none }])
    completedPosts := none }

/-- A concrete stored Blog entity whose `org` is an embedded Organisation
entity; `lastPostPublished` is stored null, `lastUpdated` missing. -/
def blogEntEmb : BlogResultEntity :=
  { toBlogInput := input0
    _id := ⟨7⟩
    org := Sum.inr orgEnt0
    createdAt := some (some 30)
    lastPostPublished := some none
    lastUpdated := none }

/-- A concrete stored Blog entity whose `org` is a bare `ObjectId`
different from the blog's own `_id`. -/
def blogEntRef : BlogResultEntity :=
  { blogEntEmb with org := Sum.inl ⟨9⟩ }

/-! ## Claims -/

/-- C1: the claim says that for a Blog entity whose `org` is a bare
identifier the output's `org` is that identifier as a hex string.  The
code (line 143) instead converts `entity._id` — the blog's own
identifier — in that branch.  At a concrete entity with `_id = 7` and
`org = ObjectId 9`, the output `org` is the hex string of `7`, which
differs from the hex string of `9` that the claim requires. -/
theorem C1_code_behavior :
    (BlogModel.convertFromEntity blogEntRef false 0).org
      = Sum.inl (ObjectId.toHexString ⟨7⟩)
    ∧ ObjectId.toHexString ⟨7⟩ ≠ ObjectId.toHexString ⟨9⟩ := by
  refine ⟨rfl, by decide⟩

/-- C2 counterexample: `blogEntEmb` stores `lastPostPublished` as present
null.  The claim requires the output to be a concrete timestamp — the
conversion-time "now" (777 here).  The code leaves the stored null in
place: the conditional spread contributes nothing for a falsy value, so
no "now" fallback ever happens. -/
theorem C2_counterexample :
    blogEntEmb.lastPostPublished = some none
    ∧ (BlogModel.convertFromEntity blogEntEmb false 777).lastPostPublished = some none
    ∧ (BlogModel.convertFromEntity blogEntEmb false 777).lastPostPublished
        ≠ some (some 777) := by
  refine ⟨rfl, rfl, by decide⟩

/-- C2 amended: for each of the Blog timestamp fields `lastPostPublished`,
`lastUpdated`, `createdAt`, a truthy stored value (a `Date`) is copied to
the output, while a stored null stays null and a missing field stays
missing — there is no "now" fallback for present-but-falsy values. -/
theorem C2_amended (entity : BlogResultEntity) (b : Bool) (now : Int) :
    (∀ d, entity.lastPostPublished = some (some d) →
      (BlogModel.convertFromEntity entity b now).lastPostPublished = some (some d))
    ∧ (entity.lastPostPublished = some none →
      (BlogModel.convertFromEntity entity b now).lastPostPublished = some none)
    ∧ (entity.lastPostPublished = none →
      (BlogModel.convertFromEntity entity b now).lastPostPublished = none)
    ∧ (∀ d, entity.lastUpdated = some (some d) →
      (BlogModel.convertFromEntity entity b now).lastUpdated = some (some d))
    ∧ (entity.lastUpdated = some none →
      (BlogModel.convertFromEntity entity b now).lastUpdated = some none)
    ∧ (entity.lastUpdated = none →
      (BlogModel.convertFromEntity entity b now).lastUpdated = none)
    ∧ (∀ d, entity.createdAt = some (some d) →
      (BlogModel.convertFromEntity entity b now).createdAt = some (some d))
    ∧ (entity.createdAt = some none →
      (BlogModel.convertFromEntity entity b now).createdAt = some none)
    ∧ (entity.createdAt = none →
      (BlogModel.convertFromEntity entity b now).createdAt = none) := by
  refine ⟨fun d h => ?_, fun h => ?_, fun h => ?_, fun d h => ?_, fun h => ?_,
    fun h => ?_, fun d h => ?_, fun h => ?_, fun h => ?_⟩ <;>
    simp [BlogModel.convertFromEntity, h]

/-- C2 amended, witness at `blogEntEmb` (null `lastPostPublished`, missing
`lastUpdated`, stored `createdAt = 30`). -/
theorem C2_amended_witness :
    (BlogModel.convertFromEntity blogEntEmb true 5).lastPostPublished = some none
    ∧ (BlogModel.convertFromEntity blogEntEmb true 5).lastUpdated = none
    ∧ (BlogModel.convertFromEntity blogEntEmb true 5).createdAt = some (some 30) :=
  ⟨(C2_amended blogEntEmb true 5).2.1 rfl,
   (C2_amended blogEntEmb true 5).2.2.2.2.2.1 rfl,
   (C2_amended blogEntEmb true 5).2.2.2.2.2.2.1 30 rfl⟩

/-- C3 counterexample: `orgEntFalsy` stores `reviewed` as the present
value `false`.  The claim requires it to be copied through unchanged; the
code's `entity.reviewed || null` collapses the falsy present value to
null. -/
theorem C3_counterexample :
    orgEntFalsy.reviewed = some (some false)
    ∧ (OrganisationModel.convertFromEntity orgEntFalsy false 0).reviewed = some none
    ∧ (OrganisationModel.convertFromEntity orgEntFalsy false 0).reviewed
        ≠ some (some false) := by
  refine ⟨rfl, rfl, by decide⟩

/-- C3 amended: each descriptive field is never missing from the output;
a present truthy value is copied through unchanged, and an absent, null,
or present-but-falsy value (`""`, `false`, `0`) becomes null.  Arrays are
always truthy, so any present `topics` list is copied through. -/
theorem C3_amended (entity : OrganisationResultEntity) (b : Bool) (now : Int) :
    (∀ s, entity.country = some (some s) →
      (OrganisationModel.convertFromEntity entity b now).country
        = some (if s = "" then none else some s))
    ∧ ((entity.country = some none ∨ entity.country = none) →
      (OrganisationModel.convertFromEntity entity b now).country = some none)
    ∧ (∀ s, entity.locale = some (some s) →
      (OrganisationModel.convertFromEntity entity b now).locale
        = some (if s = "" then none else some s))
    ∧ ((entity.locale = some none ∨ entity.locale = none) →
      (OrganisationModel.convertFromEntity entity b now).locale = some none)
    ∧ (∀ s, entity.contactEmail = some (some s) →
      (OrganisationModel.convertFromEntity entity b now).contactEmail
        = some (if s = "" then none else some s))
    ∧ ((entity.contactEmail = some none ∨ entity.contactEmail = none) →
      (OrganisationModel.convertFromEntity entity b now).contactEmail = some none)
    ∧ (∀ v, entity.reviewed = some (some v) →
      (OrganisationModel.convertFromEntity entity b now).reviewed
        = some (if v then some v else none))
    ∧ ((entity.reviewed = some none ∨ entity.reviewed = none) →
      (OrganisationModel.convertFromEntity entity b now).reviewed = some none)
    ∧ (∀ s, entity.reviewSurface = some (some s) →
      (OrganisationModel.convertFromEntity entity b now).reviewSurface
        = some (if s = "" then none else some s))
    ∧ ((entity.reviewSurface = some none ∨ entity.reviewSurface = none) →
      (OrganisationModel.convertFromEntity entity b now).reviewSurface = some none)
    ∧ (∀ n, entity.rating = some (some n) →
      (OrganisationModel.convertFromEntity entity b now).rating
        = some (if n = 0 then none else some n))
    ∧ ((entity.rating = some none ∨ entity.rating = none) →
      (OrganisationModel.convertFromEntity entity b now).rating = some none)
    ∧ (∀ s, entity.plan = some (some s) →
      (OrganisationModel.convertFromEntity entity b now).plan
        = some (if s = "" then none else some s))
    ∧ ((entity.plan = some none ∨ entity.plan = none) →
      (OrganisationModel.convertFromEntity entity b now).plan = some none)
    ∧ (∀ s, entity.website = some (some s) →
      (OrganisationModel.convertFromEntity entity b now).website
        = some (if s = "" then none else some s))
    ∧ ((entity.website = some none ∨ entity.website = none) →
      (OrganisationModel.convertFromEntity entity b now).website = some none)
    ∧ (∀ l, entity.topics = some (some l) →
      (OrganisationModel.convertFromEntity entity b now).topics = some (some l))
    ∧ ((entity.topics = some none ∨ entity.topics = none) →
      (OrganisationModel.convertFromEntity entity b now).topics = some none) := by
  refine ⟨fun s h => ?_, fun h => ?_, fun s h => ?_, fun h => ?_, fun s h => ?_,
    fun h => ?_, fun v h => ?_, fun h => ?_, fun s h => ?_, fun h => ?_,
    fun n h => ?_, fun h => ?_, fun s h => ?_, fun h => ?_, fun s h => ?_,
    fun h => ?_, fun l h => ?_, fun h => ?_⟩
  · by_cases hs : s = "" <;>
      simp [OrganisationModel.convertFromEntity, jsOrNull, truthyStr, hs, h]
  · rcases h with h | h <;> simp [OrganisationModel.convertFromEntity, jsOrNull, h]
  · by_cases hs : s = "" <;>
      simp [OrganisationModel.convertFromEntity, jsOrNull, truthyStr, hs, h]
  · rcases h with h | h <;> simp [OrganisationModel.convertFromEntity, jsOrNull, h]
  · by_cases hs : s = "" <;>
      simp [OrganisationModel.convertFromEntity, jsOrNull, truthyStr, hs, h]
  · rcases h with h | h <;> simp [OrganisationModel.convertFromEntity, jsOrNull, h]
  · cases v <;> simp [OrganisationModel.convertFromEntity, jsOrNull, truthyBool, h]
  · rcases h with h | h <;> simp [OrganisationModel.convertFromEntity, jsOrNull, h]
  · by_cases hs : s = "" <;>
      simp [OrganisationModel.convertFromEntity, jsOrNull, truthyStr, hs, h]
  · rcases h with h | h <;> simp [OrganisationModel.convertFromEntity, jsOrNull, h]
  · by_cases hn : n = 0 <;>
      simp [OrganisationModel.convertFromEntity, jsOrNull, truthyInt, hn, h]
  · rcases h with h | h <;> simp [OrganisationModel.convertFromEntity, jsOrNull, h]
  · by_cases hs : s = "" <;>
      simp [OrganisationModel.convertFromEntity, jsOrNull, truthyStr, hs, h]
  · rcases h with h | h <;> simp [OrganisationModel.convertFromEntity, jsOrNull, h]
  · by_cases hs : s = "" <;>
      simp [OrganisationModel.convertFromEntity, jsOrNull, truthyStr, hs, h]
  · rcases h with h | h <;> simp [OrganisationModel.convertFromEntity, jsOrNull, h]
  · simp [OrganisationModel.convertFromEntity, jsOrNull, h]
  · rcases h with h | h <;> simp [OrganisationModel.convertFromEntity, jsOrNull, h]

/-- C3 amended, witness at `orgEnt0`: present truthy `country` is copied,
null `plan` and missing `website` become null. -/
theorem C3_amended_witness :
    (OrganisationModel.convertFromEntity orgEnt0 false 0).country = some (some "NZ")
    ∧ (OrganisationModel.convertFromEntity orgEnt0 false 0).plan = some none
    ∧ (OrganisationModel.convertFromEntity orgEnt0 false 0).website = some none :=
  ⟨by have h := (C3_amended orgEnt0 false 0).1 "NZ" rfl; simpa using h,
   (C3_amended orgEnt0 false 0).2.2.2.2.2.2.2.2.2.2.2.2.2.1 (Or.inl rfl),
   (C3_amended orgEnt0 false 0).2.2.2.2.2.2.2.2.2.2.2.2.2.2.2.1 (Or.inr rfl)⟩

/-- C4: credential gating.  With a stored bundle, converting with
`includeCredentials = false` nulls `shopifyConnection` and converting with
`true` returns the stored bundle exactly; with no stored bundle (missing
or null) the output is null for either flag value. -/
theorem C4_credential_gating (entity : OrganisationResultEntity) (now : Int) :
    (∀ c, entity.shopifyConnection = some (some c) →
      (OrganisationModel.convertFromEntity entity false now).shopifyConnection = some none
      ∧ (OrganisationModel.convertFromEntity entity true now).shopifyConnection
          = some (some c))
    ∧ ((entity.shopifyConnection = none ∨ entity.shopifyConnection = some none) →
      ∀ b, (OrganisationModel.convertFromEntity entity b now).shopifyConnection
          = some none) := by
  constructor
  · intro c h
    constructor <;> simp [OrganisationModel.convertFromEntity, jsOrNull, h]
  · intro h b
    rcases h with h | h <;> cases b <;>
      simp [OrganisationModel.convertFromEntity, jsOrNull, h]

/-- C4 witness at `orgEnt0` (bundle `conn0` stored). -/
theorem C4_credential_gating_witness :
    (OrganisationModel.convertFromEntity orgEnt0 false 0).shopifyConnection = some none
    ∧ (OrganisationModel.convertFromEntity orgEnt0 true 0).shopifyConnection
        = some (some conn0) :=
  ⟨((C4_credential_gating orgEnt0 0).1 conn0 rfl).1,
   ((C4_credential_gating orgEnt0 0).1 conn0 rfl).2⟩

/-- C5 counterexample: `orgEntEmptyDomain` stores a bundle whose `domain`
is `""`.  The claim requires `shopifySite` to equal that domain; the
code's `entity?.shopifyConnection?.domain || null` collapses the falsy
empty string to null. -/
theorem C5_counterexample :
    orgEntEmptyDomain.shopifyConnection = some (some connEmptyDomain)
    ∧ (OrganisationModel.convertFromEntity orgEntEmptyDomain false 0).shopifySite
        = some none
    ∧ (OrganisationModel.convertFromEntity orgEntEmptyDomain false 0).shopifySite
        ≠ some (some "") := by
  refine ⟨rfl, rfl, by decide⟩

/-- C5 amended: whenever a bundle is stored and its `domain` is nonempty,
`shopifySite` equals that domain for either value of `includeCredentials`;
when no bundle is stored, or the stored domain is the empty string,
`shopifySite` is null. -/
theorem C5_amended (entity : OrganisationResultEntity) (b : Bool) (now : Int) :
    (∀ c, entity.shopifyConnection = some (some c) → c.domain ≠ "" →
      (OrganisationModel.convertFromEntity entity b now).shopifySite
        = some (some c.domain))
    ∧ (∀ c, entity.shopifyConnection = some (some c) → c.domain = "" →
      (OrganisationModel.convertFromEntity entity b now).shopifySite = some none)
    ∧ ((entity.shopifyConnection = none ∨ entity.shopifyConnection = some none) →
      (OrganisationModel.convertFromEntity entity b now).shopifySite = some none) := by
  refine ⟨fun c h hd => ?_, fun c h hd => ?_, fun h => ?_⟩
  · simp [OrganisationModel.convertFromEntity, truthyStr, h, hd]
  · simp [OrganisationModel.convertFromEntity, truthyStr, h, hd]
  · rcases h with h | h <;> simp [OrganisationModel.convertFromEntity, h]

/-- C5 amended, witness: `orgEnt0` has bundle `conn0` with a nonempty
domain, exposed for both flag values. -/
theorem C5_amended_witness :
    (OrganisationModel.convertFromEntity orgEnt0 false 0).shopifySite
      = some (some conn0.domain)
    ∧ (OrganisationModel.convertFromEntity orgEnt0 true 0).shopifySite
      = some (some conn0.domain) :=
  ⟨(C5_amended orgEnt0 false 0).1 conn0 rfl (by decide),
   (C5_amended orgEnt0 true 0).1 conn0 rfl (by decide)⟩

/-- C6: when the stored `org` is an embedded Organisation entity, the
output `org` is the Organisation conversion of it, with the same
`includeCredentials` (and the same conversion-time clock). -/
theorem C6_org_embedded (entity : BlogResultEntity) (o : OrganisationResultEntity)
    (b : Bool) (now : Int) (h : entity.org = Sum.inr o) :
    (BlogModel.convertFromEntity entity b now).org
      = Sum.inr (OrganisationModel.convertFromEntity o b now) := by
  simp [BlogModel.convertFromEntity, h]

/-- C6 witness at `blogEntEmb` (embedded `orgEnt0`). -/
theorem C6_org_embedded_witness :
    (BlogModel.convertFromEntity blogEntEmb true 3).org
      = Sum.inr (OrganisationModel.convertFromEntity orgEnt0 true 3) :=
  C6_org_embedded blogEntEmb orgEnt0 true 3 rfl

/-- C7: Organisation `createdAt` materialization — a stored date is
preserved exactly; with `createdAt` missing or null the output is the
conversion-time "now". -/
theorem C7_createdAt_materialization (entity : OrganisationResultEntity)
    (b : Bool) (now : Int) :
    (∀ d, entity.createdAt = some (some d) →
      (OrganisationModel.convertFromEntity entity b now).createdAt = some (some d))
    ∧ ((entity.createdAt = none ∨ entity.createdAt = some none) →
      (OrganisationModel.convertFromEntity entity b now).createdAt = some (some now)) := by
  constructor
  · intro d h
    simp [OrganisationModel.convertFromEntity, h]
  · intro h
    rcases h with h | h <;> simp [OrganisationModel.convertFromEntity, h]

/-- C7 witness: `orgEnt0` stores `createdAt = 20` (preserved),
`orgEntNoCa` stores none (reports the supplied "now" = 99). -/
theorem C7_createdAt_materialization_witness :
    (OrganisationModel.convertFromEntity orgEnt0 false 99).createdAt = some (some 20)
    ∧ (OrganisationModel.convertFromEntity orgEntNoCa false 99).createdAt
        = some (some 99) :=
  ⟨(C7_createdAt_materialization orgEnt0 false 99).1 20 rfl,
   (C7_createdAt_materialization orgEntNoCa false 99).2 (Or.inl rfl)⟩

/-- C8: with no stored `shopifyConnectionStatus` (missing or null) the
output reports INACTIVE; likewise for `billingPlanStatus`. -/
theorem C8_inactive_defaults (entity : OrganisationResultEntity) (b : Bool) (now : Int) :
    ((entity.shopifyConnectionStatus = none ∨ entity.shopifyConnectionStatus = some none) →
      (OrganisationModel.convertFromEntity entity b now).shopifyConnectionStatus
        = some (some ShopifyStatus.INACTIVE))
    ∧ ((entity.billingPlanStatus = none ∨ entity.billingPlanStatus = some none) →
      (OrganisationModel.convertFromEntity entity b now).billingPlanStatus
        = some (some BillingPlanStatus.INACTIVE)) := by
  constructor
  · intro h
    rcases h with h | h <;> simp [OrganisationModel.convertFromEntity, h]
  · intro h
    rcases h with h | h <;> simp [OrganisationModel.convertFromEntity, h]

/-- C8 witness at `orgEnt0` (missing shopify status, null billing status). -/
theorem C8_inactive_defaults_witness :
    (OrganisationModel.convertFromEntity orgEnt0 false 0).shopifyConnectionStatus
      = some (some ShopifyStatus.INACTIVE)
    ∧ (OrganisationModel.convertFromEntity orgEnt0 false 0).billingPlanStatus
      = some (some BillingPlanStatus.INACTIVE) :=
  ⟨(C8_inactive_defaults orgEnt0 false 0).1 (Or.inl rfl),
   (C8_inactive_defaults orgEnt0 false 0).2 (Or.inr rfl)⟩

/-- C9: noninterference of the secret bundle parts under redaction —
replacing a stored bundle's `apiKey` and `scopes` (keeping its `domain`
and every other entity field) leaves the `includeCredentials = false`
output identical. -/
theorem C9_secret_noninterference (e : OrganisationResultEntity)
    (c : ShopifyConnection) (k : String) (s : Option (Option String)) (now : Int)
    (h : e.shopifyConnection = some (some c)) :
    OrganisationModel.convertFromEntity
        { e with shopifyConnection := some (some { c with apiKey := k, scopes := s }) }
        false now
      = OrganisationModel.convertFromEntity e false now := by
  simp [OrganisationModel.convertFromEntity, h]

/-- C9 witness: changing `conn0`'s secrets on `orgEnt0` leaves the
redacted output unchanged. -/
theorem C9_secret_noninterference_witness :
    OrganisationModel.convertFromEntity
        { orgEnt0 with shopifyConnection := some (some { conn0 with apiKey := "other-key", scopes := some none }) }
        false 0
      = OrganisationModel.convertFromEntity orgEnt0 false 0 :=
  C9_secret_noninterference orgEnt0 conn0 "other-key" (some none) 0 rfl

/-- C10: the pre-parse Blog object carries the entity's `_id` (and only
otherwise schema keys plus `id`/`org`/timestamps); the final
`BlogModelSchema.parse` in strip mode removes every key outside the
declared output shape, so the output never contains `_id` and every
output key is a declared schema key. -/
theorem C10_id_stripped (entityKeys : List String) (lpp lu ca : Bool) :
    "_id" ∉ zodParseKeys blogModelSchemaKeys (blogPreParseKeys entityKeys lpp lu ca)
    ∧ ∀ k, k ∈ zodParseKeys blogModelSchemaKeys (blogPreParseKeys entityKeys lpp lu ca) →
        k ∈ blogModelSchemaKeys := by
  constructor
  · intro h
    have hmem : "_id" ∈ blogModelSchemaKeys := List.mem_of_mem_filter h
    revert hmem
    decide
  · intro k hk
    exact List.mem_of_mem_filter hk

/-- C10 witness: a full stored-entity key set (which contains `_id`)
still yields no `_id` after the parse, while `org` survives. -/
theorem C10_id_stripped_witness :
    "_id" ∉ zodParseKeys blogModelSchemaKeys (blogPreParseKeys blogResultKeys true false true)
    ∧ "org" ∈ blogModelSchemaKeys :=
  ⟨(C10_id_stripped blogResultKeys true false true).1,
   (C10_id_stripped blogResultKeys true false true).2 "org" (by decide)⟩

end Autoblog
